import Mathlib

/-!
Verification development for the savannah-ecommerce-analytics ETL pipeline.

The repository is a small batch ETL system: a pagination fetcher
(`scripts/extract/api-data-extraction.py`), a JSON flattener plus
audit/surrogate-key enricher (`scripts/transform/json-tocsv-conversion.py`),
and three warehouse loaders (`scripts/load/*-bq-loader.py`).

The embedding below models Python JSON values as the inductive `Json`
(numbers as exact rationals), pandas DataFrames as lists of association-list
rows, exceptions as `Except String`, and the external effects the code
delegates to libraries (MD5 hashing via `hashlib`, wall-clock timestamps,
JSON parsing via `json.loads`, HTTP responses, blob uploads) as explicit
function parameters.
-/

namespace Savannah

/-- A Python/JSON value as manipulated by the pipeline.  Numbers are modelled
as exact rationals (`Rat`); the claims under study only compare numbers such
as 49.99, 50.01 and 60 against the literal 50, where rational and IEEE-754
comparison agree. -/
inductive Json where
  | null
  | bool (b : Bool)
  | num (q : Rat)
  | str (s : String)
  | arr (elems : List Json)
  | obj (fields : List (String × Json))

/-- A flattened row (a Python dict / one pandas DataFrame row): an ordered
association list from column name to value, with unique keys maintained by
`rowSet`. -/
abbrev Row := List (String × Json)

/-- Dict lookup: first binding of key `k` (Python dicts have unique keys). -/
def rowGet : Row → String → Option Json
  | [], _ => none
  | (k', v) :: rest, k => if k' = k then some v else rowGet rest k

/-- Dict assignment `d[k] = v`: replaces the value in place if the key exists
(keeping its original position, as Python dicts do) and appends otherwise. -/
def rowSet : Row → String → Json → Row
  | [], k, v => [(k, v)]
  | (k', v') :: rest, k, v =>
    if k' = k then (k, v) :: rest else (k', v') :: rowSet rest k v

/-- `.get` on a JSON object; returns `none` for an absent key.  The Python
code only applies `.get` to values it has established (or assumes) to be
dicts; callers of this function model exactly those sites. -/
def jGet : Json → String → Option Json
  | .obj fields, k => rowGet fields k
  | _, _ => none

/-- `.get(k)` on a JSON object with Python's `None` default, i.e. a missing
key yields `null`. -/
def jGetN (j : Json) (k : String) : Json :=
  (jGet j k).getD .null

/-- Python `str.strip()`: remove leading and trailing whitespace. -/
def pyStrip (s : String) : String :=
  ⟨((s.data.dropWhile Char.isWhitespace).reverse.dropWhile
      Char.isWhitespace).reverse⟩

/-- A pandas DataFrame built from a list of dicts has a column `c` exactly
when some row binds `c` (missing cells are filled with NaN). -/
def dfHasCol (df : List Row) (c : String) : Bool :=
  df.any (fun r => (rowGet r c).isSome)

/-- Python `str(x)` for the values that reach the surrogate-key hashing code.
Integral numbers print with no decimal part (`str(7) = "7"`); the list/dict
renderings are placeholders, never exercised by the pipeline (natural-key
cells are scalars). -/
def pyStr : Json → String
  | .null => "None"
  | .bool true => "True"
  | .bool false => "False"
  | .num q => if q.den = 1 then toString q.num else toString q
  | .str s => s
  | .arr _ => "<list>"
  | .obj _ => "<dict>"

/-- `str` of one DataFrame cell: a cell that is absent from the underlying
dict (but whose column exists in the frame) is NaN and prints as "nan". -/
def cellStr (r : Row) (c : String) : String :=
  match rowGet r c with
  | some v => pyStr v
  | none => "nan"

/-! ## Transform stage: `scripts/transform/json-tocsv-conversion.py` -/

/-- The five fixed audit columns written by `add_audit_columns` (lines 43-47):
constant creator/updater name and source-system code, and one shared
timestamp `now` (the single `datetime.utcnow().isoformat()` call, passed
here as a parameter). -/
def auditCols (now : String) : Row :=
  [("record_create_name", .str "Daniel Oselu"),
   ("record_create_datetime", .str now),
   ("record_update_name", .str "Daniel Oselu"),
   ("record_update_datetime", .str now),
   ("source_system_code", .str "PUBLIC_DUMMYJSON_API")]

/-- Assign the audit columns into one row (pandas `df[c] = v` sets the cell
in every row). -/
def withAudit (now : String) (r : Row) : Row :=
  (auditCols now).foldl (fun r p => rowSet r p.1 p.2) r

/-- The cart surrogate-key string
`f"{row['user_id']}{row.get('product_id', '')}{row.get('cart_id', '')}"`
(line 55-56).  `row.get(c, '')` falls back to the empty string only when the
column is absent from the whole frame (`hasProd`/`hasCart`); a present column
with a missing cell formats as NaN ("nan"). -/
def cartKeyString (hasProd hasCart : Bool) (r : Row) : String :=
  cellStr r "user_id"
    ++ (if hasProd then cellStr r "product_id" else "")
    ++ (if hasCart then cellStr r "cart_id" else "")

/-- `add_audit_columns` (lines 31-58).  `hash` is `hashlib.md5(...).hexdigest()`
on the encoded key string and `now` is `datetime.utcnow().isoformat()`, both
external to the repository.  Accessing the natural-key column of a frame that
lacks it (e.g. the empty frame) raises a pandas `KeyError`, modelled as
`.error`; for carts the row-wise `df.apply` never touches a column on an
empty frame, so the empty cart frame passes through. -/
def add_audit_columns (hash : String → String) (now : String)
    (df : List Row) (data_type : String) : Except String (List Row) :=
  let df1 := df.map (withAudit now)
  if data_type = "products" then
    if dfHasCol df1 "product_id" then
      .ok (df1.map (fun r =>
        rowSet r "sgk_product_id" (.str (hash (cellStr r "product_id")))))
    else .error "KeyError: product_id"
  else if data_type = "users" then
    if dfHasCol df1 "user_id" then
      .ok (df1.map (fun r =>
        rowSet r "sgk_user_id" (.str (hash (cellStr r "user_id")))))
    else .error "KeyError: user_id"
  else if data_type = "carts" then
    if df1.isEmpty then .ok df1
    else if dfHasCol df1 "user_id" then
      .ok (df1.map (fun r =>
        rowSet r "sgk_cart_id"
          (.str (hash (cartKeyString (dfHasCol df1 "product_id")
            (dfHasCol df1 "cart_id") r)))))
    else .error "KeyError: user_id"
  else .ok df1

/-- `isinstance(v, (str, int, float, bool))` — the scalar test in the user
and product flatteners (Python `None` is not an instance of these). -/
def scalarLike : Json → Bool
  | .bool _ => true
  | .num _ => true
  | .str _ => true
  | _ => false

/-- The shared body of `flatten_user_json` (lines 121-139) and
`flatten_product_json` (lines 141-159): the two source functions are
line-for-line identical up to the column prefix `pre` ("user" / "product").
First pass: each top-level scalar field `k = v` becomes `<pre>_<k> = v`.
Second pass: each subfield of a dict field becomes `<pre>_<k>_<sub>`, and a
list field becomes `<pre>_<k>_count = len(list)`.  `nested_json.get('data', {})`
supplies `{}` when the envelope lacks `data`; a non-dict `data` would raise
`AttributeError` at `.items()`. -/
def flattenEntityRows (pre : String) (nested_json : Json) :
    Except String (List Row) :=
  match (jGet nested_json "data").getD (.obj []) with
  | .obj fields =>
    let pass1 := fields.foldl
      (fun r kv =>
        if scalarLike kv.2 then rowSet r (pre ++ "_" ++ kv.1) kv.2 else r) []
    let row := fields.foldl
      (fun r kv =>
        match kv.2 with
        | .obj sfs => sfs.foldl
            (fun r skv => rowSet r (pre ++ "_" ++ kv.1 ++ "_" ++ skv.1) skv.2) r
        | .arr xs => rowSet r (pre ++ "_" ++ kv.1 ++ "_count") (.num xs.length)
        | _ => r) pass1
    .ok [row]
  | _ => .error "AttributeError"

/-- `flatten_user_json` (lines 121-139). -/
def flatten_user_json (nested_json : Json) : Except String (List Row) :=
  flattenEntityRows "user" nested_json

/-- `flatten_product_json` (lines 141-159). -/
def flatten_product_json (nested_json : Json) : Except String (List Row) :=
  flattenEntityRows "product" nested_json

/-- The six cart-level fields extracted once per cart record
(`cart_info`, lines 94-101). -/
def cartInfo (cart_data : Json) : Row :=
  [("cart_id", jGetN cart_data "id"),
   ("user_id", jGetN cart_data "userId"),
   ("total_cart_value", jGetN cart_data "total"),
   ("discounted_total_cart_value", jGetN cart_data "discountedTotal"),
   ("total_products", jGetN cart_data "totalProducts"),
   ("total_quantity", jGetN cart_data "totalQuantity")]

/-- The eight per-item fields added to a copy of `cart_info` for one line
item (`row.update({...})`, lines 108-117).  The item keys are disjoint from
the cart keys, so the dict update is plain concatenation. -/
def cartItemFields (p : Json) : Row :=
  [("product_id", jGetN p "id"),
   ("product_title", jGetN p "title"),
   ("product_price", jGetN p "price"),
   ("product_quantity", jGetN p "quantity"),
   ("product_total", jGetN p "total"),
   ("product_discount_percentage", jGetN p "discountPercentage"),
   ("product_discounted_total", jGetN p "discountedTotal"),
   ("product_thumbnail", jGetN p "thumbnail")]

/-- `flatten_cart_json` (lines 91-119): one output row per entry of the
cart's `products` list.  A line item that is not a dict raises
`AttributeError` at `product.get`; a `products` value that is not a list
fails the `for` iteration (`TypeError`; the degenerate empty-string /
empty-dict iterables are not distinguished here — no claim touches them).
`cart_data.get(...)` requires `data` to be a dict, default `{}`. -/
def flatten_cart_json (nested_json : Json) : Except String (List Row) :=
  match (jGet nested_json "data").getD (.obj []) with
  | .obj cfs =>
    let cart_data := Json.obj cfs
    match (jGet cart_data "products").getD (.arr []) with
    | .arr products =>
      products.mapM (fun p =>
        match p with
        | .obj _ => .ok (cartInfo cart_data ++ cartItemFields p)
        | _ => .error "AttributeError")
    | _ => .error "TypeError"
  | _ => .error "AttributeError"

/-- Merge step of `internal_flatten`'s dict case: a dict-shaped flattened
child is spliced into the accumulator via `dict.update`; any other child is
bound at its joined key. -/
def mergeFlat : List (String × Json) → Row → Row
  | [], acc => acc
  | (k, v) :: rest, acc =>
    match v with
    | .obj sub => mergeFlat rest (sub.foldl (fun acc p => rowSet acc p.1 p.2) acc)
    | v => mergeFlat rest (rowSet acc k v)

mutual

/-- `flatten_general_json`'s recursive worker `internal_flatten`
(lines 73-86): dicts merge flattened children (dict-shaped results are
spliced via `dict.update`, others bound at the joined key, here computed by
`flatChildren` and merged by `mergeFlat`); lists map the worker over their
elements; scalars pass through. -/
def internal_flatten (sep : String) : Json → String → Json
  | .obj fields, name => .obj (mergeFlat (flatChildren sep fields name) [])
  | .arr xs, name => .arr (flatElems sep xs name)
  | v, _ => v

/-- Flatten every value of a dict's field list, pairing each result with the
joined key prospect `name ++ k` (the flattened child keeps its own keys when
it is itself a dict). -/
def flatChildren (sep : String) : List (String × Json) → String →
    List (String × Json)
  | [], _ => []
  | (k, v) :: rest, name =>
    (name ++ k, internal_flatten sep v (name ++ k ++ sep)) ::
      flatChildren sep rest name

/-- Flatten every element of a list value at the same key path. -/
def flatElems (sep : String) : List Json → String → List Json
  | [], _ => []
  | x :: rest, name => internal_flatten sep x name :: flatElems sep rest name

end

/-- `flatten_general_json` (lines 71-89): wraps a dict result in a
one-element list; a list result is returned as is.  (A scalar result is
returned unwrapped in Python — a shape never reachable from
`convert_json_to_csv`, which only flattens dicts; modelled as an error.) -/
def flatten_general_json (nested_json : Json) (sep : String) :
    Except String (List Row) :=
  match internal_flatten sep nested_json "" with
  | .obj fs => .ok [fs]
  | .arr xs => xs.mapM (fun x =>
      match x with
      | .obj fs => .ok fs
      | _ => .error "TypeError")
  | _ => .error "TypeError"

/-- `flatten_json` (lines 60-69): dispatch on the entity-type tag, falling
back to the general flattener for unknown tags. -/
def flatten_json (nested_json : Json) (data_type : String) :
    Except String (List Row) :=
  if data_type = "carts" then flatten_cart_json nested_json
  else if data_type = "users" then flatten_user_json nested_json
  else if data_type = "products" then flatten_product_json nested_json
  else flatten_general_json nested_json "_"

/-- The body of the per-line loop of `convert_json_to_csv` (lines 176-198)
after a successful `json.loads`: skip the line when `data` is missing or not
a dict; otherwise flatten and merge each `metadata` field into every emitted
row under a `metadata_` prefix.  `.get` on a non-dict top level and
`.items()` on a non-dict `metadata` raise `AttributeError`, which the
`except json.JSONDecodeError` handler does not catch. -/
def processLine (data_type : String) (json_data : Json) :
    Except String (List Row) :=
  match json_data with
  | .obj _ =>
    match jGet json_data "data" with
    | some (.obj _) => do
      let entries ← flatten_json json_data data_type
      let metaFields ← (match jGet json_data "metadata" with
        | none => (.ok [] : Except String (List (String × Json)))
        | some (.obj fs) => .ok fs
        | some _ => .error "AttributeError")
      .ok (entries.map (fun e =>
        metaFields.foldl (fun e kv => rowSet e ("metadata_" ++ kv.1) kv.2) e))
    | _ => .ok []
  | _ => .error "AttributeError"

/-- The read-parse-flatten loop of `convert_json_to_csv` (lines 174-198).
`parse` models `json.loads` (`none` = `json.JSONDecodeError`, which is
caught and skipped); `lines` models the raw blob split into lines;
`line.strip()` is `pyStrip`. -/
def flattenStage (parse : String → Option Json) (lines : List String)
    (data_type : String) : Except String (List Row) :=
  lines.foldlM
    (fun acc line =>
      match parse (pyStrip line) with
      | none => .ok acc
      | some j => do
        .ok (acc ++ (← processLine data_type j)))
    ([] : List Row)

/-- `convert_json_to_csv` (lines 161-210) up to the CSV serialization:
flatten every line, then enrich with audit columns and the surrogate key
(`pd.DataFrame` on the accumulated rows is the identity in this model). -/
def convert_json_to_csv (hash : String → String) (now : String)
    (parse : String → Option Json) (lines : List String)
    (data_type : String) : Except String (List Row) := do
  add_audit_columns hash now (← flattenStage parse lines data_type) data_type

/-! ## Extract stage: `scripts/extract/api-data-extraction.py` -/

/-- One HTTP page response as seen by `fetch_paginated_data`:
`fail` covers `requests.RequestException` (raised status, connection error,
or a JSON body that fails to decode); `ok` carries the three optional
collection keys and the optional `total` of a decoded JSON body. -/
inductive PageResp (α : Type) where
  | fail
  | ok (products users carts : Option (List α)) (total : Option Nat)

/-- Python `a or b` specialised to optional lists: `None` and `[]` are falsy. -/
def pyOrList {α : Type} (a b : Option (List α)) : Option (List α) :=
  match a with
  | some l => if l.isEmpty then b else some l
  | none => b

/-- `data.get('products') or data.get('users') or data.get('carts') or []`
(line 33); on a failed request no items are read. -/
def pageItems {α : Type} : PageResp α → List α
  | .fail => []
  | .ok p u c _ => (pyOrList (pyOrList p u) c).getD []

/-- The `while True` loop of `fetch_paginated_data` (lines 25-48).  `pages`
maps a `skip` offset to the response for `?limit=...&skip=<skip>`; `fuel`
bounds the number of iterations (the source loop has no bound of its own —
every theorem below supplies enough fuel for the loop to reach one of the
source's three exits).  Exits: request failure (`break` in the `except` arm,
returning what was accumulated), an empty item list, or
`total_fetched >= data.get('total', 0)`. -/
def fetchGo {α : Type} (pages : Nat → PageResp α) (limit : Nat) :
    Nat → Nat → List α → Nat → List α
  | 0, _, acc, _ => acc
  | fuel + 1, skip, acc, fetched =>
    match pages skip with
    | .fail => acc
    | .ok p u c t =>
      let items := (pyOrList (pyOrList p u) c).getD []
      if items.isEmpty then acc
      else
        let acc2 := acc ++ items
        let fetched2 := fetched + items.length
        if t.getD 0 ≤ fetched2 then acc2
        else fetchGo pages limit fuel (skip + limit) acc2 fetched2

/-- `APIDataExtractor.fetch_paginated_data` (lines 20-51): start at
`skip = 0` with nothing accumulated. -/
def fetch_paginated_data {α : Type} (pages : Nat → PageResp α)
    (limit fuel : Nat) : List α :=
  fetchGo pages limit fuel 0 [] 0

/-- The well-formed paginated API: the page at offset `skip` serves
`allItems[skip : skip+limit]` and reports `total = len(allItems)` under the
`products` key. -/
def wfPages {α : Type} (allItems : List α) (limit : Nat) :
    Nat → PageResp α :=
  fun skip => .ok (some ((allItems.drop skip).take limit)) none none
    (some allItems.length)

/-- The NDJSON content built by `save_to_gcs` (lines 58-64): every item is
wrapped with the single `extraction_timestamp` taken once per call
(`datetime.now().isoformat()`, line 59, evaluated before the loop), passed
here as `now`. -/
def ndjsonContent (now : String) (data : List Json) : List Json :=
  data.map (fun item =>
    .obj [("metadata", .obj [("extraction_timestamp", .str now)]),
          ("data", item)])

/-- `APIDataExtractor.save_to_gcs` (lines 53-71): build the NDJSON lines,
upload them, and convert any upload exception into `False` (the
`except Exception` arm returns `False` instead of re-raising). -/
def save_to_gcs (now : String) (data : List Json)
    (upload : List Json → Except String Unit) : Bool :=
  match upload (ndjsonContent now data) with
  | .ok _ => true
  | .error _ => false

/-! ## Load stage: `scripts/load/*-bq-loader.py`

The loaders read a cleansed CSV into a DataFrame (modelled as the input
`List Row`), project a hardcoded required-column list (pandas raises
`KeyError` when one is missing), rename positionally, coerce some columns
with `pd.to_numeric(errors='coerce')`, and filter. -/

/-- Euclid's algorithm with explicit fuel, so that it reduces inside the
kernel (`Nat.gcd` itself is defined by well-founded recursion, which blocks
`decide`/`rfl` evaluation). -/
def fuelGcd : Nat → Nat → Nat → Nat
  | _, 0, n => n
  | 0, _ + 1, _ => 0
  | fuel + 1, m + 1, n => fuelGcd fuel (n % (m + 1)) (m + 1)

theorem fuelGcd_eq : ∀ (fuel m n : Nat), m ≤ fuel →
    fuelGcd fuel m n = Nat.gcd m n := by
  intro fuel
  induction fuel with
  | zero =>
    intro m n h
    have hm : m = 0 := Nat.le_zero.mp h
    subst hm
    simp [fuelGcd]
  | succ fuel ih =>
    intro m n h
    match m with
    | 0 => simp [fuelGcd]
    | m + 1 =>
      have hlt : n % (m + 1) ≤ fuel :=
        Nat.le_trans (Nat.le_of_lt_succ (Nat.mod_lt n (Nat.succ_pos m)))
          (Nat.le_of_succ_le_succ h)
      rw [fuelGcd, ih (n % (m + 1)) (m + 1) hlt]
      exact (Nat.gcd_rec (m + 1) n).symm

/-- Computable gcd: agrees with `Nat.gcd` but evaluates in the kernel. -/
def kGcd (m n : Nat) : Nat := fuelGcd m m n

theorem kGcd_eq (m n : Nat) : kGcd m n = Nat.gcd m n :=
  fuelGcd_eq m m n (Nat.le_refl m)

/-- Normalized rational `num / den`, built so that it evaluates in the
kernel (the library's `mkRat` normalizes through `Nat.gcd` and gets stuck
under `decide`/`rfl`). -/
def mkRatFast (num : Int) (den : Nat) : Rat :=
  if hd : den = 0 then 0
  else
    let g := kGcd num.natAbs den
    have hg : g = num.natAbs.gcd den := kGcd_eq _ _
    { num := num.tdiv g, den := den / g,
      den_nz := Rat.normalize.den_nz hd hg,
      reduced := Rat.normalize.reduced hd hg }

/-- `mkRatFast` is the library's rational constructor. -/
theorem mkRatFast_eq (num : Int) (den : Nat) :
    mkRatFast num den = mkRat num den := by
  unfold mkRatFast mkRat
  split
  · rfl
  · next hd =>
    simp only [hd, if_false]
    unfold Rat.normalize Rat.maybeNormalize
    split
    · next hg =>
      apply Rat.ext
      · simp [kGcd_eq, hg]
      · simp [kGcd_eq, hg]
    · simp [kGcd_eq]

/-- Digit-string to natural number (characters already checked to be
digits). -/
def digitsToNat (cs : List Char) : Nat :=
  cs.foldl (fun n c => n * 10 + (c.toNat - 48)) 0

/-- Numeric-string parsing as performed by `pd.to_numeric`: optional sign,
digits, optional fractional part (scientific notation and other exotic
accepted forms are not exercised by any claim). -/
def parseDecimal (s : String) : Option Rat :=
  let s := pyStrip s
  let core := fun (cs : List Char) (sign : Int) =>
    let intPart := cs.takeWhile (·.isDigit)
    let rest := cs.drop intPart.length
    match rest with
    | [] =>
      if intPart.isEmpty then none
      else some (mkRatFast (sign * digitsToNat intPart) 1)
    | '.' :: frac =>
      if frac.all (·.isDigit) && !(intPart.isEmpty && frac.isEmpty) then
        some (mkRatFast
          (sign * (digitsToNat intPart * 10 ^ frac.length + digitsToNat frac))
          (10 ^ frac.length))
      else none
    | _ => none
  match s.toList with
  | '-' :: cs => core cs (-1)
  | '+' :: cs => core cs 1
  | cs => core cs 1

/-- One cell under `pd.to_numeric(col, errors='coerce')`: numbers pass
through, booleans become 0/1, parseable strings become numbers, everything
else (including NaN/None) becomes null. -/
def to_numeric : Json → Option Rat
  | .num q => some q
  | .bool b => some (if b then 1 else 0)
  | .str s => parseDecimal s
  | _ => none

/-- Apply `pd.to_numeric(errors='coerce')` to column `c` of one row. -/
def coerceNumericCol (c : String) (r : Row) : Row :=
  rowSet r c ((to_numeric ((rowGet r c).getD .null)).elim Json.null Json.num)

/-- `df[required].copy()` followed by the positional rename
`table.columns = renamed`: the projected row binds every renamed column to
the source column's cell (NaN — here null — when the cell is missing from
this row while present elsewhere in the frame). -/
def projectRename (required renamed : List String) (r : Row) : Row :=
  (required.zip renamed).map (fun p => (p.2, (rowGet r p.1).getD .null))

/-- A row survives `dropna(subset=cols)` iff none of the listed cells is
null/NaN. -/
def notNullAt (cols : List String) (r : Row) : Bool :=
  cols.all (fun c =>
    match rowGet r c with
    | some .null => false
    | none => false
    | some _ => true)

/-- The required source columns of `ProductsBQLoader.clean_products_table`
(lines 75-98). -/
def productsRequired : List String :=
  ["sgk_product_id", "product_id", "product_title", "product_category",
   "product_brand", "product_price",
   "record_create_name", "record_create_datetime", "record_update_name",
   "record_update_datetime", "source_system_code"]

/-- The target schema names assigned positionally (lines 104-116). -/
def productsRenamed : List String :=
  ["sgk_product_id", "product_id", "name", "category", "brand", "price",
   "record_create_name", "record_create_datetime", "record_update_name",
   "record_update_datetime", "source_system_code"]

/-- Keep filter of the products loader: `products_table['price'] > 50`
(line 120); a NaN price compares false and is dropped. -/
def priceOver50 (r : Row) : Bool :=
  match rowGet r "price" with
  | some (.num q) => decide (50 < q)
  | _ => false

/-- `ProductsBQLoader.clean_products_table` (lines 52-127), from the
DataFrame read out of the CSV: project/rename, coerce `price` to numeric
(unparseable becomes null), and keep only rows with `price > 50`. -/
def clean_products_table (df : List Row) : Except String (List Row) :=
  if productsRequired.all (fun c => dfHasCol df c) then
    .ok ((df.map (fun r => coerceNumericCol "price"
      (projectRename productsRequired productsRenamed r))).filter priceOver50)
  else .error "KeyError"

/-- The required source columns of `UsersBQLoader.clean_users_table`
(lines 74-99). -/
def usersRequired : List String :=
  ["sgk_user_id", "user_id", "user_firstName", "user_lastName",
   "user_gender", "user_age", "user_address_address", "user_address_city",
   "user_address_postalCode",
   "record_create_name", "record_create_datetime", "record_update_name",
   "record_update_datetime", "source_system_code"]

/-- The users target schema names assigned positionally (lines 105-121). -/
def usersRenamed : List String :=
  ["sgk_user_id", "user_id", "first_name", "last_name", "gender", "age",
   "street", "city", "postal_code",
   "record_create_name", "record_create_datetime", "record_update_name",
   "record_update_datetime", "source_system_code"]

/-- `UsersBQLoader.clean_users_table` (lines 52-133): project/rename, coerce
`age`, then `dropna(subset=['user_id', 'first_name', 'last_name'])`. -/
def clean_users_table (df : List Row) : Except String (List Row) :=
  if usersRequired.all (fun c => dfHasCol df c) then
    .ok ((df.map (fun r => coerceNumericCol "age"
      (projectRename usersRequired usersRenamed r))).filter
        (notNullAt ["user_id", "first_name", "last_name"]))
  else .error "KeyError"

/-- The required source columns of `CartsBQLoader.clean_carts_table`
(lines 71-96). -/
def cartsRequired : List String :=
  ["sgk_cart_id", "cart_id", "user_id", "product_id", "product_quantity",
   "product_price", "total_cart_value",
   "record_create_name", "record_create_datetime", "record_update_name",
   "record_update_datetime", "source_system_code"]

/-- The carts target schema names assigned positionally (lines 104-117). -/
def cartsRenamed : List String :=
  ["sgk_cart_id", "cart_id", "user_id", "product_id", "quantity", "price",
   "total_cart_value",
   "record_create_name", "record_create_datetime", "record_update_name",
   "record_update_datetime", "source_system_code"]

/-- `CartsBQLoader.clean_carts_table` (lines 52-131): project/rename, coerce
`quantity` and `price`, then
`dropna(subset=['cart_id', 'user_id', 'product_id'])`. -/
def clean_carts_table (df : List Row) : Except String (List Row) :=
  if cartsRequired.all (fun c => dfHasCol df c) then
    .ok ((df.map (fun r => coerceNumericCol "price" (coerceNumericCol "quantity"
      (projectRename cartsRequired cartsRenamed r)))).filter
        (notNullAt ["cart_id", "user_id", "product_id"]))
  else .error "KeyError"

/-! ## Row lemmas -/

theorem rowGet_rowSet_self (r : Row) (k : String) (v : Json) :
    rowGet (rowSet r k v) k = some v := by
  induction r with
  | nil => simp [rowSet, rowGet]
  | cons a rest ih =>
    by_cases h : a.1 = k
    · simp [rowSet, rowGet, h]
    · simp [rowSet, rowGet, h, ih]

theorem rowGet_rowSet_ne (r : Row) (k' k : String) (v : Json)
    (h : k' ≠ k) : rowGet (rowSet r k' v) k = rowGet r k := by
  induction r with
  | nil => simp [rowSet, rowGet, h]
  | cons a rest ih =>
    by_cases ha : a.1 = k'
    · simp [rowSet, rowGet, ha, h]
    · simp only [rowSet, ha, if_false, rowGet, ih]

theorem exceptOkBind {α β : Type} (a : α) (f : α → Except String β) :
    (Except.ok a >>= f) = f a := rfl

theorem rowGet_append (a b : Row) (k : String) :
    rowGet (a ++ b) k =
      match rowGet a k with
      | some v => some v
      | none => rowGet b k := by
  induction a with
  | nil => simp [rowGet]
  | cons p rest ih =>
    by_cases h : p.1 = k
    · simp [rowGet, h]
    · simp [rowGet, h, ih]

theorem rowGet_isSome_mem (r : Row) (k : String)
    (h : (rowGet r k).isSome) : k ∈ r.map Prod.fst := by
  induction r with
  | nil => simp [rowGet] at h
  | cons p rest ih =>
    by_cases hp : p.1 = k
    · simp [hp]
    · simp only [rowGet, hp, if_false] at h
      simp [ih h]

theorem rowGet_withAudit_ne (now : String) (r : Row) (k : String)
    (h1 : k ≠ "record_create_name") (h2 : k ≠ "record_create_datetime")
    (h3 : k ≠ "record_update_name") (h4 : k ≠ "record_update_datetime")
    (h5 : k ≠ "source_system_code") :
    rowGet (withAudit now r) k = rowGet r k := by
  simp only [withAudit, auditCols, List.foldl]
  rw [rowGet_rowSet_ne _ _ _ _ (Ne.symm h5), rowGet_rowSet_ne _ _ _ _ (Ne.symm h4),
    rowGet_rowSet_ne _ _ _ _ (Ne.symm h3), rowGet_rowSet_ne _ _ _ _ (Ne.symm h2),
    rowGet_rowSet_ne _ _ _ _ (Ne.symm h1)]

/-! ## Claims -/

/-- Claim C1.  Surrogate-key determinism and noninterference: within one
`add_audit_columns` call, two rows that agree on the natural-key fields of
their entity (product id for products; user id for users; user id, product
id and cart id for cart line rows) are assigned the same surrogate key,
whatever their other fields hold; the key is a pure function of the
natural-key fields (the hash is an explicit function parameter — no
randomness, no run-to-run salt enters the computation). -/
theorem c1_surrogate_key_determinism (hash : String → String) (now : String)
    (r1 r2 : Row) :
    (∀ out, rowGet r1 "product_id" = rowGet r2 "product_id" →
      add_audit_columns hash now [r1, r2] "products" = .ok out →
      ∃ s, out.map (fun r => rowGet r "sgk_product_id") = [s, s]) ∧
    (∀ out, rowGet r1 "user_id" = rowGet r2 "user_id" →
      add_audit_columns hash now [r1, r2] "users" = .ok out →
      ∃ s, out.map (fun r => rowGet r "sgk_user_id") = [s, s]) ∧
    (∀ out, rowGet r1 "user_id" = rowGet r2 "user_id" →
      rowGet r1 "product_id" = rowGet r2 "product_id" →
      rowGet r1 "cart_id" = rowGet r2 "cart_id" →
      add_audit_columns hash now [r1, r2] "carts" = .ok out →
      ∃ s, out.map (fun r => rowGet r "sgk_cart_id") = [s, s]) := by
  have cse : ∀ (k : String), k ≠ "record_create_name" →
      k ≠ "record_create_datetime" → k ≠ "record_update_name" →
      k ≠ "record_update_datetime" → k ≠ "source_system_code" →
      rowGet r1 k = rowGet r2 k →
      cellStr (withAudit now r1) k = cellStr (withAudit now r2) k := by
    intro k n1 n2 n3 n4 n5 h
    simp only [cellStr]
    rw [rowGet_withAudit_ne _ _ _ n1 n2 n3 n4 n5,
      rowGet_withAudit_ne _ _ _ n1 n2 n3 n4 n5, h]
  refine ⟨?_, ?_, ?_⟩
  · intro out h hok
    have e := cse "product_id" (by decide) (by decide) (by decide) (by decide)
      (by decide) h
    simp only [add_audit_columns, String.reduceEq, reduceIte, List.map,
      List.isEmpty_cons, Bool.false_eq_true, if_false] at hok
    split at hok
    · rw [Except.ok.injEq] at hok
      subst hok
      refine ⟨some (Json.str (hash (cellStr (withAudit now r2) "product_id"))), ?_⟩
      simp only [List.map, rowGet_rowSet_self]
      rw [e]
    · exact absurd hok (by simp)
  · intro out h hok
    have e := cse "user_id" (by decide) (by decide) (by decide) (by decide)
      (by decide) h
    simp only [add_audit_columns, String.reduceEq, reduceIte, List.map,
      List.isEmpty_cons, Bool.false_eq_true, if_false] at hok
    split at hok
    · rw [Except.ok.injEq] at hok
      subst hok
      refine ⟨some (Json.str (hash (cellStr (withAudit now r2) "user_id"))), ?_⟩
      simp only [List.map, rowGet_rowSet_self]
      rw [e]
    · exact absurd hok (by simp)
  · intro out hu hp hc hok
    have e1 := cse "user_id" (by decide) (by decide) (by decide) (by decide)
      (by decide) hu
    have e2 := cse "product_id" (by decide) (by decide) (by decide) (by decide)
      (by decide) hp
    have e3 := cse "cart_id" (by decide) (by decide) (by decide) (by decide)
      (by decide) hc
    simp only [add_audit_columns, String.reduceEq, reduceIte, List.map,
      List.isEmpty_cons, Bool.false_eq_true, if_false] at hok
    split at hok
    · rw [Except.ok.injEq] at hok
      subst hok
      refine ⟨some (Json.str (hash
        (cartKeyString (dfHasCol [withAudit now r1, withAudit now r2] "product_id")
          (dfHasCol [withAudit now r1, withAudit now r2] "cart_id")
          (withAudit now r2)))), ?_⟩
      simp only [List.map, rowGet_rowSet_self, cartKeyString]
      rw [e1, e2, e3]
    · exact absurd hok (by simp)

/-- Two rows with equal natural keys but different other fields, for the C1
witness. -/
def c1row1 : Row :=
  [("product_id", .num 7), ("user_id", .num 1), ("cart_id", .num 2),
   ("color", .str "red")]

/-- See `c1row1`. -/
def c1row2 : Row :=
  [("product_id", .num 7), ("user_id", .num 1), ("cart_id", .num 2),
   ("color", .str "blue"), ("size", .num 10)]

/-- Witness for C1 at concrete rows that differ in their non-key fields. -/
theorem c1_witness :
    (∃ s, ((add_audit_columns (fun s => s) "TS" [c1row1, c1row2]
      "products").toOption.getD []).map
        (fun r => rowGet r "sgk_product_id") = [s, s]) ∧
    (∃ s, ((add_audit_columns (fun s => s) "TS" [c1row1, c1row2]
      "users").toOption.getD []).map
        (fun r => rowGet r "sgk_user_id") = [s, s]) ∧
    (∃ s, ((add_audit_columns (fun s => s) "TS" [c1row1, c1row2]
      "carts").toOption.getD []).map
        (fun r => rowGet r "sgk_cart_id") = [s, s]) := by
  have h := c1_surrogate_key_determinism (fun s => s) "TS" c1row1 c1row2
  exact ⟨h.1 _ rfl rfl, h.2.1 _ rfl rfl, h.2.2 _ rfl rfl rfl rfl⟩

/-- The six cart-level column names emitted for every line-item row. -/
def cartLevelCols : List String :=
  ["cart_id", "user_id", "total_cart_value", "discounted_total_cart_value",
   "total_products", "total_quantity"]

/-- The eight per-item column names emitted for one line-item row. -/
def itemLevelCols : List String :=
  ["product_id", "product_title", "product_price", "product_quantity",
   "product_total", "product_discount_percentage",
   "product_discounted_total", "product_thumbnail"]

theorem mapM_cartItems (cinfo : Row) :
    ∀ (items : List Json), (∀ p ∈ items, ∃ pf, p = Json.obj pf) →
    (items.mapM (fun p =>
      match p with
      | .obj _ => Except.ok (cinfo ++ cartItemFields p)
      | _ => Except.error "AttributeError")) =
      .ok (items.map (fun p => cinfo ++ cartItemFields p)) := by
  intro items
  induction items with
  | nil => intro _; rfl
  | cons p rest ih =>
    intro h
    obtain ⟨pf, hpf⟩ := h p (by simp)
    subst hpf
    have hrest := ih (fun q hq => h q (by simp [hq]))
    simp only [List.mapM_cons, hrest, List.map]
    rfl

/-- Claim C2.  Cart fan-out: a cart record whose `products` list holds `N`
line items (each a JSON object) flattens to exactly `N` rows; every row
repeats the same six cart-level field values; every column of every row is
one of the six cart-level or eight per-item columns (so rows can differ only
in the per-item fields); and zero items yield zero rows. -/
theorem c2_cart_fanout (nested_json : Json) (cfs : List (String × Json))
    (items : List Json)
    (hd : jGet nested_json "data" = some (.obj cfs))
    (hp : rowGet cfs "products" = some (.arr items))
    (hobj : ∀ p ∈ items, ∃ pf, p = Json.obj pf) :
    ∃ rows, flatten_cart_json nested_json = .ok rows ∧
      rows.length = items.length ∧
      (∀ r ∈ rows, ∀ c ∈ cartLevelCols,
        rowGet r c = rowGet (cartInfo (Json.obj cfs)) c) ∧
      (∀ r ∈ rows, ∀ k, (rowGet r k).isSome →
        k ∈ cartLevelCols ∨ k ∈ itemLevelCols) ∧
      (items = [] → rows = []) := by
  refine ⟨items.map (fun p => cartInfo (Json.obj cfs) ++ cartItemFields p),
    ?_, by simp, ?_, ?_, by intro h; simp [h]⟩
  · rw [flatten_cart_json, hd]
    simp only [Option.getD_some]
    rw [show jGet (Json.obj cfs) "products" = some (.arr items) from hp]
    simp only [Option.getD_some]
    exact mapM_cartItems _ items hobj
  · intro r hr c hc
    obtain ⟨p, _, hpe⟩ := List.mem_map.mp hr
    subst hpe
    rw [rowGet_append]
    fin_cases hc <;>
      simp [cartInfo, cartItemFields, rowGet, String.reduceEq]
  · intro r hr k hk
    obtain ⟨p, _, hpe⟩ := List.mem_map.mp hr
    subst hpe
    have := rowGet_isSome_mem _ _ hk
    rw [List.map_append] at this
    rcases List.mem_append.mp this with h | h
    · left
      simpa [cartInfo, cartLevelCols] using h
    · right
      simpa [cartItemFields, itemLevelCols] using h

/-- Two concrete line items for the C2 witness. -/
def c2items : List Json :=
  [.obj [("id", .num 1), ("title", .str "A"), ("price", .num 50),
         ("quantity", .num 1), ("total", .num 50),
         ("discountPercentage", .num 10), ("discountedTotal", .num 45),
         ("thumbnail", .str "a.png")],
   .obj [("id", .num 2), ("title", .str "B"), ("price", .num 75),
         ("quantity", .num 2), ("total", .num 150),
         ("discountPercentage", .num 10), ("discountedTotal", .num 135),
         ("thumbnail", .str "b.png")]]

/-- The field list of the C2 witness cart's `data` object. -/
def c2cartData : List (String × Json) :=
  [("id", .num 11), ("userId", .num 4), ("total", .num 200),
   ("discountedTotal", .num 180), ("totalProducts", .num 2),
   ("totalQuantity", .num 3), ("products", .arr c2items)]

/-- A concrete cart record with two line items for the C2 witness. -/
def c2cart : Json :=
  .obj [("data", .obj c2cartData)]

/-- Witness for C2 at a two-item cart. -/
theorem c2_witness :
    ∃ rows, flatten_cart_json c2cart = .ok rows ∧
      rows.length = c2items.length ∧
      (∀ r ∈ rows, ∀ c ∈ cartLevelCols,
        rowGet r c = rowGet (cartInfo (Json.obj c2cartData)) c) ∧
      (∀ r ∈ rows, ∀ k, (rowGet r k).isSome →
        k ∈ cartLevelCols ∨ k ∈ itemLevelCols) ∧
      (c2items = [] → rows = []) := by
  exact c2_cart_fanout c2cart c2cartData c2items rfl rfl (by
    intro p hp
    simp only [c2items, List.mem_cons, List.not_mem_nil, or_false] at hp
    rcases hp with h | h <;> exact ⟨_, h⟩)

/-- Claim C9.  One call of `save_to_gcs` wraps every item as
`(metadata (extraction_timestamp T)) (data item)` with the single timestamp
`T = now` taken once per call and shared by all lines (it is read before the
per-item loop), and an upload failure makes the call return `false` instead
of raising. -/
theorem c9_save_to_gcs_shared_timestamp (now : String) (data : List Json)
    (upload : List Json → Except String Unit) :
    ndjsonContent now data = data.map (fun item =>
      .obj [("metadata", .obj [("extraction_timestamp", .str now)]),
            ("data", item)]) ∧
    (∀ line ∈ ndjsonContent now data,
      jGet line "metadata" =
        some (.obj [("extraction_timestamp", .str now)]) ∧
      ∃ item ∈ data, jGet line "data" = some item) ∧
    (∀ e, upload (ndjsonContent now data) = .error e →
      save_to_gcs now data upload = false) := by
  refine ⟨rfl, ?_, ?_⟩
  · intro line hline
    obtain ⟨item, hitem, hline⟩ := List.mem_map.mp hline
    subst hline
    exact ⟨by simp [jGet, rowGet], item, hitem, by simp [jGet, rowGet]⟩
  · intro e he
    simp [save_to_gcs, he]

/-- Witness for C9 at a failing upload. -/
theorem c9_witness :
    ndjsonContent "T1" [Json.num 1, Json.str "x"] =
      [.obj [("metadata", .obj [("extraction_timestamp", .str "T1")]),
             ("data", .num 1)],
       .obj [("metadata", .obj [("extraction_timestamp", .str "T1")]),
             ("data", .str "x")]] ∧
    save_to_gcs "T1" [Json.num 1, Json.str "x"]
      (fun _ => .error "upload failed") = false := by
  exact ⟨(c9_save_to_gcs_shared_timestamp "T1" [Json.num 1, Json.str "x"]
      (fun _ => .error "upload failed")).1,
    (c9_save_to_gcs_shared_timestamp "T1" [Json.num 1, Json.str "x"]
      (fun _ => .error "upload failed")).2.2 "upload failed" rfl⟩

/-- Claim C10 (implicit).  When the flattening loop of
`convert_json_to_csv` accumulates zero rows — for instance when every input
line fails JSON parsing, or the file is empty — the enrichment step for
`products` or `users` raises a missing-column `KeyError` (the surrogate-key
computation indexes the natural-key column of an empty, column-less
DataFrame) instead of producing an empty result. -/
theorem c10_empty_input_keyerror (hash : String → String) (now : String)
    (parse : String → Option Json) (lines : List String)
    (hbad : ∀ line ∈ lines, parse (pyStrip line) = none) :
    convert_json_to_csv hash now parse lines "products" =
      .error "KeyError: product_id" ∧
    convert_json_to_csv hash now parse lines "users" =
      .error "KeyError: user_id" := by
  have hstage : ∀ dt, flattenStage parse lines dt = .ok [] := by
    intro dt
    rw [flattenStage]
    induction lines with
    | nil => rfl
    | cons l rest ih =>
      rw [List.foldlM_cons, hbad l (by simp)]
      exact ih (fun l' hl' => hbad l' (by simp [hl']))
  constructor
  · rw [show convert_json_to_csv hash now parse lines "products" =
        flattenStage parse lines "products" >>=
          (fun f => add_audit_columns hash now f "products") from rfl,
      hstage]
    rfl
  · rw [show convert_json_to_csv hash now parse lines "users" =
        flattenStage parse lines "users" >>=
          (fun f => add_audit_columns hash now f "users") from rfl,
      hstage]
    rfl

/-- Witness for C10: a single unparseable line. -/
theorem c10_witness :
    convert_json_to_csv (fun s => s) "TS" (fun _ => none) ["not json"]
      "products" = .error "KeyError: product_id" ∧
    convert_json_to_csv (fun s => s) "TS" (fun _ => none) ["not json"]
      "users" = .error "KeyError: user_id" := by
  exact c10_empty_input_keyerror (fun s => s) "TS" (fun _ => none)
    ["not json"] (fun _ _ => rfl)

/-- The NDJSON input line of the C5 example (braces written as hex
escapes). -/
def c5line : String :=
  "\x7b\"metadata\":\x7b\"extraction_timestamp\":\"2024-01-01T00:00:00\"\x7d,\"data\":\x7b\"id\":7,\"title\":\"Widget\",\"price\":60\x7d\x7d"

/-- The JSON value `json.loads` produces for `c5line`. -/
def c5json : Json :=
  .obj [("metadata", .obj [("extraction_timestamp",
           .str "2024-01-01T00:00:00")]),
        ("data", .obj [("id", .num 7), ("title", .str "Widget"),
           ("price", .num 60)])]

/-- Claim C5.  End-to-end product example: converting the single sample line
with `data_type = "products"` yields exactly one row holding
`product_id = 7`, `product_title = "Widget"`, `product_price = 60`,
`metadata_extraction_timestamp = "2024-01-01T00:00:00"`, the five audit
columns, and `sgk_product_id` equal to the content hash of the string
`"7"`. -/
theorem c5_product_example (hash : String → String) (now : String)
    (parse : String → Option Json)
    (hparse : parse (pyStrip c5line) = some c5json) :
    convert_json_to_csv hash now parse [c5line] "products" =
      .ok [[("product_id", .num 7), ("product_title", .str "Widget"),
            ("product_price", .num 60),
            ("metadata_extraction_timestamp",
              .str "2024-01-01T00:00:00"),
            ("record_create_name", .str "Daniel Oselu"),
            ("record_create_datetime", .str now),
            ("record_update_name", .str "Daniel Oselu"),
            ("record_update_datetime", .str now),
            ("source_system_code", .str "PUBLIC_DUMMYJSON_API"),
            ("sgk_product_id", .str (hash "7"))]] := by
  have h1 : flattenStage parse [c5line] "products" =
      .ok [[("product_id", .num 7), ("product_title", .str "Widget"),
            ("product_price", .num 60),
            ("metadata_extraction_timestamp",
              .str "2024-01-01T00:00:00")]] := by
    simp only [flattenStage, List.foldlM_cons, List.foldlM_nil, hparse]
    rfl
  rw [show convert_json_to_csv hash now parse [c5line] "products" =
      flattenStage parse [c5line] "products" >>=
        (fun f => add_audit_columns hash now f "products") from rfl, h1]
  rfl

/-- Witness for C5 with a concrete parser recognising the sample line. -/
theorem c5_witness :
    convert_json_to_csv (fun s => s) "TS"
      (fun s => if s = c5line then some c5json else none) [c5line]
      "products" =
      .ok [[("product_id", .num 7), ("product_title", .str "Widget"),
            ("product_price", .num 60),
            ("metadata_extraction_timestamp",
              .str "2024-01-01T00:00:00"),
            ("record_create_name", .str "Daniel Oselu"),
            ("record_create_datetime", .str "TS"),
            ("record_update_name", .str "Daniel Oselu"),
            ("record_update_datetime", .str "TS"),
            ("source_system_code", .str "PUBLIC_DUMMYJSON_API"),
            ("sgk_product_id", .str "7")]] := by
  exact c5_product_example (fun s => s) "TS"
    (fun s => if s = c5line then some c5json else none) rfl

/-- Claim C6.  Products price filter: after coercing `price` to numeric
(unparseable values become null), the cleaned products table holds exactly
the projected rows whose price is strictly greater than 50; every surviving
row carries a numeric price above 50 (so a 49.99 row, a null price, or an
unparseable price is dropped, and a 50.01 row is kept — see the witness). -/
theorem c6_products_price_filter (df t : List Row)
    (h : clean_products_table df = .ok t) :
    (∀ r', r' ∈ t ↔ ∃ r ∈ df,
      r' = coerceNumericCol "price"
        (projectRename productsRequired productsRenamed r) ∧
      priceOver50 r' = true) ∧
    (∀ r' ∈ t, ∃ q : Rat, rowGet r' "price" = some (.num q) ∧ 50 < q) := by
  rw [clean_products_table] at h
  split at h
  · rw [Except.ok.injEq] at h
    subst h
    constructor
    · intro r'
      simp only [List.mem_filter, List.mem_map]
      constructor
      · rintro ⟨⟨r, hr, rfl⟩, hp⟩
        exact ⟨r, hr, rfl, hp⟩
      · rintro ⟨r, hr, rfl, hp⟩
        exact ⟨⟨r, hr, rfl⟩, hp⟩
    · intro r' hr'
      have hp := (List.mem_filter.mp hr').2
      rw [priceOver50] at hp
      split at hp
      · next q heq => exact ⟨q, heq, of_decide_eq_true hp⟩
      · exact absurd hp (by simp)
  · exact absurd h (by simp)

/-- A full product row with price 49.99 (to be dropped). -/
def c6rowLow : Row :=
  [("sgk_product_id", .str "k1"), ("product_id", .num 1),
   ("product_title", .str "Cheap"), ("product_category", .str "c"),
   ("product_brand", .str "b"), ("product_price", .str "49.99"),
   ("record_create_name", .str "Daniel Oselu"),
   ("record_create_datetime", .str "TS"),
   ("record_update_name", .str "Daniel Oselu"),
   ("record_update_datetime", .str "TS"),
   ("source_system_code", .str "PUBLIC_DUMMYJSON_API")]

/-- A full product row with price 50.01 (to be kept). -/
def c6rowHigh : Row :=
  [("sgk_product_id", .str "k2"), ("product_id", .num 2),
   ("product_title", .str "Dear"), ("product_category", .str "c"),
   ("product_brand", .str "b"), ("product_price", .str "50.01"),
   ("record_create_name", .str "Daniel Oselu"),
   ("record_create_datetime", .str "TS"),
   ("record_update_name", .str "Daniel Oselu"),
   ("record_update_datetime", .str "TS"),
   ("source_system_code", .str "PUBLIC_DUMMYJSON_API")]

/-- A full product row with an unparseable price (to be dropped). -/
def c6rowBad : Row :=
  [("sgk_product_id", .str "k3"), ("product_id", .num 3),
   ("product_title", .str "Odd"), ("product_category", .str "c"),
   ("product_brand", .str "b"), ("product_price", .str "not a number"),
   ("record_create_name", .str "Daniel Oselu"),
   ("record_create_datetime", .str "TS"),
   ("record_update_name", .str "Daniel Oselu"),
   ("record_update_datetime", .str "TS"),
   ("source_system_code", .str "PUBLIC_DUMMYJSON_API")]

/-- The C6 witness table: 49.99, 50.01 and an unparseable price. -/
def c6df : List Row := [c6rowLow, c6rowHigh, c6rowBad]

/-- Witness for C6: only the 50.01 row survives cleaning (the 49.99 row and
the unparseable-price row are dropped). -/
theorem c6_witness :
    ((clean_products_table c6df).toOption.getD []).map
      (fun r => rowGet r "product_id") = [some (.num 2)] ∧
    (∀ r', r' ∈ ((clean_products_table c6df).toOption.getD []) ↔
      ∃ r ∈ c6df,
        r' = coerceNumericCol "price"
          (projectRename productsRequired productsRenamed r) ∧
        priceOver50 r' = true) ∧
    (∀ r' ∈ ((clean_products_table c6df).toOption.getD []),
      ∃ q : Rat, rowGet r' "price" = some (.num q) ∧ 50 < q) := by
  exact ⟨rfl, c6_products_price_filter c6df _ rfl⟩

/-- A users row with a non-null `user_id` but a null `user_firstName`: the
C8 counterexample input. -/
def c8urow : Row :=
  [("sgk_user_id", .str "k1"), ("user_id", .num 1),
   ("user_firstName", .null), ("user_lastName", .str "Doe"),
   ("user_gender", .str "f"), ("user_age", .num 30),
   ("user_address_address", .str "a"), ("user_address_city", .str "c"),
   ("user_address_postalCode", .str "p"),
   ("record_create_name", .str "Daniel Oselu"),
   ("record_create_datetime", .str "TS"),
   ("record_update_name", .str "Daniel Oselu"),
   ("record_update_datetime", .str "TS"),
   ("source_system_code", .str "PUBLIC_DUMMYJSON_API")]

/-- Counterexample to claim C8 as stated.  The claim says a users row
survives cleaning if and only if its `user_id` is non-null; this row has
`user_id = 1` (non-null, also after projection and coercion) and yet
`clean_users_table` drops it, because the source's `dropna` subset is
`['user_id', 'first_name', 'last_name']` and the row's first name is
null. -/
theorem c8_counterexample :
    rowGet c8urow "user_id" = some (.num 1) ∧
    notNullAt ["user_id"] (coerceNumericCol "age"
      (projectRename usersRequired usersRenamed c8urow)) = true ∧
    clean_users_table [c8urow] = .ok [] :=
  ⟨rfl, rfl, rfl⟩

/-- Claim C8, amended.  The carts half of the claim holds as stated: a carts
row survives cleaning iff `cart_id`, `user_id` and `product_id` are all
non-null.  The users half must be widened to the source's actual `dropna`
subset: a users row survives iff `user_id`, `first_name` AND `last_name`
are all non-null (not `user_id` alone). -/
theorem c8_null_key_filter_amended (udf ut cdf ct : List Row)
    (hu : clean_users_table udf = .ok ut)
    (hc : clean_carts_table cdf = .ok ct) :
    (∀ r', r' ∈ ut ↔ ∃ r ∈ udf,
      r' = coerceNumericCol "age"
        (projectRename usersRequired usersRenamed r) ∧
      notNullAt ["user_id", "first_name", "last_name"] r' = true) ∧
    (∀ r', r' ∈ ct ↔ ∃ r ∈ cdf,
      r' = coerceNumericCol "price" (coerceNumericCol "quantity"
        (projectRename cartsRequired cartsRenamed r)) ∧
      notNullAt ["cart_id", "user_id", "product_id"] r' = true) := by
  constructor
  · rw [clean_users_table] at hu
    split at hu
    · rw [Except.ok.injEq] at hu
      subst hu
      intro r'
      simp only [List.mem_filter, List.mem_map]
      constructor
      · rintro ⟨⟨r, hr, rfl⟩, hp⟩
        exact ⟨r, hr, rfl, hp⟩
      · rintro ⟨r, hr, rfl, hp⟩
        exact ⟨⟨r, hr, rfl⟩, hp⟩
    · exact absurd hu (by simp)
  · rw [clean_carts_table] at hc
    split at hc
    · rw [Except.ok.injEq] at hc
      subst hc
      intro r'
      simp only [List.mem_filter, List.mem_map]
      constructor
      · rintro ⟨⟨r, hr, rfl⟩, hp⟩
        exact ⟨r, hr, rfl, hp⟩
      · rintro ⟨r, hr, rfl, hp⟩
        exact ⟨⟨r, hr, rfl⟩, hp⟩
    · exact absurd hc (by simp)

/-- A fully non-null users row: survives C8 cleaning. -/
def c8urowOK : Row :=
  [("sgk_user_id", .str "k2"), ("user_id", .num 2),
   ("user_firstName", .str "Ann"), ("user_lastName", .str "Lee"),
   ("user_gender", .str "f"), ("user_age", .num 28),
   ("user_address_address", .str "a"), ("user_address_city", .str "c"),
   ("user_address_postalCode", .str "p"),
   ("record_create_name", .str "Daniel Oselu"),
   ("record_create_datetime", .str "TS"),
   ("record_update_name", .str "Daniel Oselu"),
   ("record_update_datetime", .str "TS"),
   ("source_system_code", .str "PUBLIC_DUMMYJSON_API")]

/-- A fully non-null carts row: survives C8 cleaning. -/
def c8crowOK : Row :=
  [("sgk_cart_id", .str "k3"), ("cart_id", .num 9), ("user_id", .num 2),
   ("product_id", .num 5), ("product_quantity", .num 1),
   ("product_price", .num 10), ("total_cart_value", .num 10),
   ("record_create_name", .str "Daniel Oselu"),
   ("record_create_datetime", .str "TS"),
   ("record_update_name", .str "Daniel Oselu"),
   ("record_update_datetime", .str "TS"),
   ("source_system_code", .str "PUBLIC_DUMMYJSON_API")]

/-- A carts row with a null `product_id` natural key: dropped by C8
cleaning. -/
def c8crowBad : Row :=
  [("sgk_cart_id", .str "k4"), ("cart_id", .num 9), ("user_id", .num 2),
   ("product_id", .null), ("product_quantity", .num 1),
   ("product_price", .num 10), ("total_cart_value", .num 10),
   ("record_create_name", .str "Daniel Oselu"),
   ("record_create_datetime", .str "TS"),
   ("record_update_name", .str "Daniel Oselu"),
   ("record_update_datetime", .str "TS"),
   ("source_system_code", .str "PUBLIC_DUMMYJSON_API")]

/-- Witness for the amended C8: the null-first-name users row and the
null-product-id carts row are dropped, the fully non-null rows survive. -/
theorem c8_witness :
    ((clean_users_table [c8urow, c8urowOK]).toOption.getD []).map
      (fun r => rowGet r "user_id") = [some (.num 2)] ∧
    ((clean_carts_table [c8crowOK, c8crowBad]).toOption.getD []).map
      (fun r => rowGet r "sgk_cart_id") = [some (.str "k3")] ∧
    (∀ r', r' ∈ ((clean_users_table [c8urow, c8urowOK]).toOption.getD []) ↔
      ∃ r ∈ [c8urow, c8urowOK],
        r' = coerceNumericCol "age"
          (projectRename usersRequired usersRenamed r) ∧
        notNullAt ["user_id", "first_name", "last_name"] r' = true) ∧
    (∀ r', r' ∈ ((clean_carts_table [c8crowOK, c8crowBad]).toOption.getD []) ↔
      ∃ r ∈ [c8crowOK, c8crowBad],
        r' = coerceNumericCol "price" (coerceNumericCol "quantity"
          (projectRename cartsRequired cartsRenamed r)) ∧
        notNullAt ["cart_id", "user_id", "product_id"] r' = true) := by
  have h := c8_null_key_filter_amended [c8urow, c8urowOK] _
    [c8crowOK, c8crowBad] _ rfl rfl
  exact ⟨rfl, rfl, h.1, h.2⟩

/-- A line that parses to an object with an object-valued `data` field and a
well-formed envelope. -/
def c4good : Json := .obj [("data", .obj [("id", .num 1)])]

/-- A line that parses to an object with an object-valued `data` field but a
non-dict `metadata` value. -/
def c4bad : Json := .obj [("metadata", .num 5), ("data", .obj [("id", .num 2)])]

/-- The parser for the C4 counterexample lines. -/
def c4parse : String → Option Json :=
  fun s => if s = "good" then some c4good
    else if s = "bad" then some c4bad else none

/-- Counterexample to claim C4 as stated.  Both input lines parse to objects
with an object-valued `data` field, so the claim counts both among the `N`
valid lines and promises they are flattened with no abort.  But the second
line's `metadata` is the number 5, and `metadata.items()` raises an
`AttributeError` that the loop's `except json.JSONDecodeError` handler does
not catch: the run aborts instead of producing the two flattened row
sets. -/
theorem c4_counterexample :
    (∃ fs, jGet c4good "data" = some (.obj fs)) ∧
    (∃ fs, jGet c4bad "data" = some (.obj fs)) ∧
    flattenStage c4parse ["good", "bad"] "users" =
      .error "AttributeError" ∧
    convert_json_to_csv (fun s => s) "TS" c4parse ["good", "bad"]
      "users" = .error "AttributeError" :=
  ⟨⟨_, rfl⟩, ⟨_, rfl⟩, rfl, rfl⟩

/-- Claim C4, amended.  Malformed-line robustness: lines that fail JSON
parsing are skipped and never abort the run, and each remaining line
contributes exactly its own flattened row set, in input order — provided
each parsed line's per-line processing itself succeeds (its `data` is an
object or the line is skipped; its `metadata`, if present, is a dict; for
carts, its product entries are well-shaped).  The counterexample above
forces the proviso: a parsed line whose `metadata` is not a dict raises
instead of being skipped.  (`flattenStage` is the read-parse-flatten loop of
`convert_json_to_csv`; the subsequent audit step is claim C10's
concern.) -/
theorem c4_malformed_line_robustness_amended (parse : String → Option Json)
    (lines : List String) (data_type : String)
    (h : ∀ line ∈ lines, parse (pyStrip line) = none ∨
      ∃ j rs, parse (pyStrip line) = some j ∧
        processLine data_type j = .ok rs) :
    flattenStage parse lines data_type =
      .ok (lines.flatMap (fun line =>
        match parse (pyStrip line) with
        | none => []
        | some j => (processLine data_type j).toOption.getD [])) := by
  rw [flattenStage]
  suffices hgo : ∀ (ls : List String) (acc : List Row),
      (∀ line ∈ ls, parse (pyStrip line) = none ∨
        ∃ j rs, parse (pyStrip line) = some j ∧
          processLine data_type j = .ok rs) →
      (ls.foldlM (fun acc line =>
        match parse (pyStrip line) with
        | none => .ok acc
        | some j => do
          .ok (acc ++ (← processLine data_type j)))
        acc : Except String (List Row)) =
        .ok (acc ++ ls.flatMap (fun line =>
          match parse (pyStrip line) with
          | none => []
          | some j => (processLine data_type j).toOption.getD [])) by
    simpa using hgo lines [] h
  intro ls
  induction ls with
  | nil =>
    intro acc _
    simp only [List.foldlM_nil, List.flatMap_nil, List.append_nil]
    rfl
  | cons l rest ih =>
    intro acc hl
    rw [List.foldlM_cons]
    rcases hl l (by simp) with hnone | ⟨j, rs, hj, hok⟩
    · simp only [hnone, exceptOkBind, List.flatMap_cons, List.nil_append]
      exact ih acc (fun l' h' => hl l' (by simp [h']))
    · simp only [hj, hok, exceptOkBind, List.flatMap_cons, Except.toOption,
        Option.getD_some, ← List.append_assoc]
      exact ih (acc ++ rs) (fun l' h' => hl l' (by simp [h']))

/-- A sequence of dict assignments `d[k] = v` (the elementary step both
flattening passes are built from). -/
def insFold (ps : List (String × Json)) (r0 : Row) : Row :=
  ps.foldl (fun r p => rowSet r p.1 p.2) r0

theorem insFold_append (a b : List (String × Json)) (r0 : Row) :
    insFold (a ++ b) r0 = insFold b (insFold a r0) := by
  simp [insFold, List.foldl_append]

theorem rowGet_insFold_notMem (ps : List (String × Json)) (r0 : Row)
    (k : String) (h : k ∉ ps.map Prod.fst) :
    rowGet (insFold ps r0) k = rowGet r0 k := by
  induction ps generalizing r0 with
  | nil => rfl
  | cons p rest ih =>
    simp only [List.map_cons, List.mem_cons, not_or] at h
    rw [insFold, List.foldl_cons]
    rw [show (rest.foldl (fun r p => rowSet r p.1 p.2) (rowSet r0 p.1 p.2)) =
      insFold rest (rowSet r0 p.1 p.2) from rfl]
    rw [ih _ h.2, rowGet_rowSet_ne _ _ _ _ (fun he => h.1 he.symm)]

theorem rowGet_insFold_mem (ps : List (String × Json)) (r0 : Row)
    (k : String) (v : Json) (hmem : (k, v) ∈ ps)
    (hnd : (ps.map Prod.fst).Nodup) :
    rowGet (insFold ps r0) k = some v := by
  induction ps generalizing r0 with
  | nil => simp at hmem
  | cons p rest ih =>
    simp only [List.map_cons, List.nodup_cons] at hnd
    rw [insFold, List.foldl_cons]
    rw [show (rest.foldl (fun r p => rowSet r p.1 p.2) (rowSet r0 p.1 p.2)) =
      insFold rest (rowSet r0 p.1 p.2) from rfl]
    rcases List.mem_cons.mp hmem with heq | hrest
    · subst heq
      rw [rowGet_insFold_notMem _ _ _ hnd.1, rowGet_rowSet_self]
    · exact ih _ hrest hnd.2

theorem rowGet_insFold_isSome (ps : List (String × Json)) (r0 : Row)
    (k : String) (h : (rowGet (insFold ps r0) k).isSome) :
    k ∈ ps.map Prod.fst ∨ (rowGet r0 k).isSome := by
  induction ps generalizing r0 with
  | nil => exact Or.inr h
  | cons p rest ih =>
    rw [insFold, List.foldl_cons] at h
    rw [show (rest.foldl (fun r p => rowSet r p.1 p.2) (rowSet r0 p.1 p.2)) =
      insFold rest (rowSet r0 p.1 p.2) from rfl] at h
    rcases ih _ h with hin | hsome
    · exact Or.inl (by simp [hin])
    · by_cases he : p.1 = k
      · exact Or.inl (by simp [he])
      · rw [rowGet_rowSet_ne _ _ _ _ he] at hsome
        exact Or.inr hsome

/-- The key/value pairs inserted by the first pass of the user/product
flattener: one `<pre>_<k>` binding per top-level scalar field. -/
def pass1Pairs (pre : String) (fields : List (String × Json)) :
    List (String × Json) :=
  fields.filterMap (fun kv =>
    if scalarLike kv.2 then some (pre ++ "_" ++ kv.1, kv.2) else none)

/-- The key/value pairs inserted by the second pass: subfield bindings for
dict fields and one `_count` binding per list field. -/
def pass2Pairs (pre : String) (fields : List (String × Json)) :
    List (String × Json) :=
  fields.flatMap (fun kv =>
    match kv.2 with
    | .obj sfs => sfs.map (fun skv =>
        (pre ++ "_" ++ kv.1 ++ "_" ++ skv.1, skv.2))
    | .arr xs => [(pre ++ "_" ++ kv.1 ++ "_count", .num xs.length)]
    | _ => [])

/-- All columns the flattener can emit for a record. -/
def allPairs (pre : String) (fields : List (String × Json)) :
    List (String × Json) :=
  pass1Pairs pre fields ++ pass2Pairs pre fields

theorem foldl_pass1_eq (pre : String) :
    ∀ (fields : List (String × Json)) (r0 : Row),
    fields.foldl (fun r kv =>
      if scalarLike kv.2 then rowSet r (pre ++ "_" ++ kv.1) kv.2 else r) r0 =
    insFold (pass1Pairs pre fields) r0 := by
  intro fields
  induction fields with
  | nil => intro r0; rfl
  | cons kv rest ih =>
    intro r0
    by_cases h : scalarLike kv.2
    · simp only [List.foldl_cons, h, if_true, pass1Pairs,
        List.filterMap_cons, insFold, List.foldl_cons]
      exact ih _
    · simp only [List.foldl_cons, h, if_false, pass1Pairs,
        List.filterMap_cons]
      exact ih _

theorem foldl_subobj_eq (name : String) :
    ∀ (sfs : List (String × Json)) (r0 : Row),
    sfs.foldl (fun r skv => rowSet r (name ++ "_" ++ skv.1) skv.2) r0 =
    insFold (sfs.map (fun skv => (name ++ "_" ++ skv.1, skv.2))) r0 := by
  intro sfs
  induction sfs with
  | nil => intro r0; rfl
  | cons skv rest ih =>
    intro r0
    simp only [List.foldl_cons, List.map_cons, insFold]
    exact ih _

theorem foldl_pass2_eq (pre : String) :
    ∀ (fields : List (String × Json)) (r0 : Row),
    fields.foldl (fun r kv =>
      match kv.2 with
      | Json.obj sfs => sfs.foldl
          (fun r skv => rowSet r (pre ++ "_" ++ kv.1 ++ "_" ++ skv.1) skv.2) r
      | Json.arr xs =>
          rowSet r (pre ++ "_" ++ kv.1 ++ "_count") (.num xs.length)
      | _ => r) r0 =
    insFold (pass2Pairs pre fields) r0 := by
  intro fields
  induction fields with
  | nil => intro r0; rfl
  | cons kv rest ih =>
    intro r0
    obtain ⟨k1, v1⟩ := kv
    rw [show pass2Pairs pre ((k1, v1) :: rest) =
        (match v1 with
         | Json.obj sfs => sfs.map (fun skv =>
             (pre ++ "_" ++ k1 ++ "_" ++ skv.1, skv.2))
         | Json.arr xs => [(pre ++ "_" ++ k1 ++ "_count",
             Json.num xs.length)]
         | _ => []) ++ pass2Pairs pre rest from rfl,
      insFold_append]
    cases v1 with
    | obj sfs =>
      show List.foldl _ (sfs.foldl
          (fun r skv => rowSet r (pre ++ "_" ++ k1 ++ "_" ++ skv.1) skv.2)
          r0) rest =
        insFold (pass2Pairs pre rest) (insFold (sfs.map (fun skv =>
          (pre ++ "_" ++ k1 ++ "_" ++ skv.1, skv.2))) r0)
      rw [foldl_subobj_eq]
      exact ih _
    | arr xs => exact ih _
    | null => exact ih _
    | bool b => exact ih _
    | num q => exact ih _
    | str s => exact ih _

/-- The flattener's output row is one batch of dict assignments over all
derived columns. -/
theorem flattenEntityRows_eq (pre : String) (nested_json : Json)
    (fields : List (String × Json))
    (hd : jGet nested_json "data" = some (.obj fields)) :
    flattenEntityRows pre nested_json =
      .ok [insFold (allPairs pre fields) []] := by
  rw [flattenEntityRows, hd]
  simp only [Option.getD_some]
  rw [foldl_pass1_eq, foldl_pass2_eq, allPairs, insFold_append]

/-- A user record whose scalar field `x_count = 5` collides with the count
column derived from its list field `x`: the C7 counterexample input. -/
def c7cex : Json :=
  .obj [("data", .obj [("x_count", .num 5), ("x", .arr [])])]

/-- Counterexample to claim C7 as stated.  The record has the top-level
scalar field `x_count = 5`, so the claim promises the output column
`user_x_count = 5`; but the second pass reduces the list field `x` to the
same column name `user_x_count` and overwrites it with the list's length 0.
The scalar field does not "appear as `user_x_count = 5`" in the row. -/
theorem c7_counterexample :
    (("x_count", Json.num 5) ∈
      [("x_count", Json.num 5), ("x", Json.arr [])] ∧
      scalarLike (Json.num 5) = true) ∧
    flatten_user_json c7cex = .ok [[("user_x_count", .num 0)]] ∧
    ¬ (∀ row, flatten_user_json c7cex = .ok [row] →
        rowGet row "user_x_count" = some (.num 5)) := by
  refine ⟨⟨by simp, rfl⟩, rfl, ?_⟩
  intro h
  have h5 := h [("user_x_count", .num 0)] rfl
  rw [show rowGet [("user_x_count", Json.num 0)] "user_x_count" =
    some (Json.num 0) from rfl, Option.some.injEq] at h5
  have : (0 : Rat) = 5 := Json.num.inj h5
  norm_num at this

/-- Claim C7, amended.  User flattening produces exactly one row per record
in which each top-level scalar field `f = v` appears as `user_<f> = v`, each
subfield `s` of a dict field `f` appears as `user_<f>_<s>`, each list field
`f` contributes only the count column `user_<f>_count` (the list's contents
are dropped), and no other columns exist — PROVIDED the derived column names
are pairwise distinct.  The counterexample above forces the proviso: when a
scalar field's name collides with a derived subfield/count name, the
second-pass value silently overwrites the scalar column. -/
theorem c7_user_flattening_amended (nested_json : Json)
    (fields : List (String × Json))
    (hd : jGet nested_json "data" = some (.obj fields))
    (hnd : ((allPairs "user" fields).map Prod.fst).Nodup) :
    ∃ row, flatten_user_json nested_json = .ok [row] ∧
      (∀ k v, (k, v) ∈ fields → scalarLike v = true →
        rowGet row ("user_" ++ k) = some v) ∧
      (∀ k sfs, (k, Json.obj sfs) ∈ fields → ∀ sk sv, (sk, sv) ∈ sfs →
        rowGet row ("user_" ++ k ++ "_" ++ sk) = some sv) ∧
      (∀ k xs, (k, Json.arr xs) ∈ fields →
        rowGet row ("user_" ++ k ++ "_count") = some (.num xs.length)) ∧
      (∀ k, (rowGet row k).isSome → k ∈ (allPairs "user" fields).map
        Prod.fst) := by
  refine ⟨insFold (allPairs "user" fields) [], ?_, ?_, ?_, ?_, ?_⟩
  · exact flattenEntityRows_eq "user" nested_json fields hd
  · intro k v hmem hscalar
    refine rowGet_insFold_mem _ _ _ _ ?_ hnd
    rw [allPairs]
    refine List.mem_append_left _ ?_
    exact List.mem_filterMap.mpr ⟨(k, v), hmem, by simp [hscalar]⟩
  · intro k sfs hmem sk sv hsmem
    refine rowGet_insFold_mem _ _ _ _ ?_ hnd
    rw [allPairs]
    refine List.mem_append_right _ ?_
    refine List.mem_flatMap.mpr ⟨(k, Json.obj sfs), hmem, ?_⟩
    exact List.mem_map.mpr ⟨(sk, sv), hsmem, rfl⟩
  · intro k xs hmem
    refine rowGet_insFold_mem _ _ _ _ ?_ hnd
    rw [allPairs]
    refine List.mem_append_right _ ?_
    exact List.mem_flatMap.mpr ⟨(k, Json.arr xs), hmem, by simp⟩
  · intro k hk
    rcases rowGet_insFold_isSome _ _ _ hk with h | h
    · exact h
    · simp [rowGet] at h

/-- The `data` fields of the C7 witness user record: scalars, one nested
object, one list (whose contents must be dropped), and one null field. -/
def c7fields : List (String × Json) :=
  [("id", .num 3), ("firstName", .str "Ann"), ("verified", .bool true),
   ("middleName", .null),
   ("address", .obj [("city", .str "Oslo"), ("postalCode", .num 1234)]),
   ("roles", .arr [.str "admin", .str "buyer"])]

/-- The C7 witness user record. -/
def c7user : Json := .obj [("data", .obj c7fields)]

/-- Witness for the amended C7 at a record with scalar, null, nested-object
and list fields and no name collisions. -/
theorem c7_witness :
    ∃ row, flatten_user_json c7user = .ok [row] ∧
      (∀ k v, (k, v) ∈ c7fields → scalarLike v = true →
        rowGet row ("user_" ++ k) = some v) ∧
      (∀ k sfs, (k, Json.obj sfs) ∈ c7fields → ∀ sk sv, (sk, sv) ∈ sfs →
        rowGet row ("user_" ++ k ++ "_" ++ sk) = some sv) ∧
      (∀ k xs, (k, Json.arr xs) ∈ c7fields →
        rowGet row ("user_" ++ k ++ "_count") = some (.num xs.length)) ∧
      (∀ k, (rowGet row k).isSome → k ∈ (allPairs "user" c7fields).map
        Prod.fst) := by
  exact c7_user_flattening_amended c7user c7fields rfl (by decide)

/-- The parser for the C4 witness lines: one well-formed line, one
unparseable line, one line whose `data` is not an object. -/
def c4wparse : String → Option Json :=
  fun s => if s = "one" then some c4good
    else if s = "three" then some (.obj [("data", .num 3)]) else none

/-- Witness for the amended C4: the unparseable line and the
non-object-`data` line are skipped; the single valid line flattens to its
one row; the run completes. -/
theorem c4_witness :
    flattenStage c4wparse ["one", "two", "three"] "users" =
      .ok [[("user_id", .num 1)]] := by
  have h := c4_malformed_line_robustness_amended c4wparse
    ["one", "two", "three"] "users" (by
      intro line hline
      fin_cases hline
      · exact Or.inr ⟨c4good, [[("user_id", .num 1)]], rfl, rfl⟩
      · exact Or.inl rfl
      · exact Or.inr ⟨.obj [("data", .num 3)], [], rfl, rfl⟩)
  exact h

theorem fetchGo_wf {α : Type} (al : List α) (limit : Nat) (hl : 0 < limit) :
    ∀ (fuel j : Nat) (acc : List α),
    j * limit < al.length →
    al.length ≤ j * limit + fuel * limit →
    fetchGo (wfPages al limit) limit fuel (j * limit) acc (j * limit) =
      acc ++ al.drop (j * limit) := by
  intro fuel
  induction fuel with
  | zero => intro j acc hlt hle; omega
  | succ fuel ih =>
    intro j acc hlt hle
    have hpj : wfPages al limit (j * limit) =
        .ok (some ((al.drop (j * limit)).take limit)) none none
          (some al.length) := rfl
    have hlen : ((al.drop (j * limit)).take limit).length =
        min limit (al.length - j * limit) := by
      simp [List.length_take, List.length_drop]
    have hne : ((al.drop (j * limit)).take limit).isEmpty = false := by
      rw [List.isEmpty_eq_false, ← List.length_pos, hlen]
      omega
    rw [fetchGo, hpj]
    simp only [pyOrList, hne, Bool.false_eq_true, if_false,
      Option.getD_some, Option.getD_none]
    by_cases hstop : al.length ≤ j * limit +
        ((al.drop (j * limit)).take limit).length
    · rw [if_pos hstop]
      rw [List.take_of_length_le (by simp [List.length_drop]; omega)]
    · rw [if_neg hstop]
      rw [hlen] at hstop
      have hfull : min limit (al.length - j * limit) = limit := by omega
      have hmul : (j + 1) * limit = j * limit + limit := Nat.succ_mul j limit
      rw [hlen, hfull, show j * limit + limit = (j + 1) * limit from
        hmul.symm]
      rw [ih (j + 1) (acc ++ (al.drop (j * limit)).take limit)
        (by omega) (by rw [Nat.succ_mul] at hle ⊢; omega)]
      rw [List.append_assoc]
      congr 1
      rw [show al.drop ((j + 1) * limit) =
        (al.drop (j * limit)).drop limit from by rw [List.drop_drop, hmul]]
      exact List.take_append_drop limit (al.drop (j * limit))

theorem fetchGo_cut {α : Type} (pages : Nat → PageResp α) (al : List α)
    (limit : Nat) (hl : 0 < limit) (P : Nat)
    (hagree : ∀ s, s < P * limit → pages s = wfPages al limit s)
    (hstop : pageItems (pages (P * limit)) = [])
    (hB : P * limit < al.length) :
    ∀ (fuel j : Nat) (acc : List α),
    j ≤ P →
    P < fuel + j →
    fetchGo pages limit fuel (j * limit) acc (j * limit) =
      acc ++ (al.drop (j * limit)).take ((P - j) * limit) := by
  intro fuel
  induction fuel with
  | zero => intro j acc hj hfuel; omega
  | succ fuel ih =>
    intro j acc hj hfuel
    by_cases hjP : j = P
    · subst hjP
      rw [fetchGo]
      simp only [Nat.sub_self, Nat.zero_mul, List.take_zero,
        List.append_nil]
      match hp : pages (j * limit) with
      | .fail => rfl
      | .ok p u c t =>
        rw [hp] at hstop
        simp only [pageItems] at hstop
        simp only [hstop, List.isEmpty_nil, if_true]
    · have hjlt : j < P := Nat.lt_of_le_of_ne hj hjP
      have hmulle : (j + 1) * limit ≤ P * limit :=
        Nat.mul_le_mul_right limit (by omega)
      have hmul : (j + 1) * limit = j * limit + limit := Nat.succ_mul j limit
      have hlt : j * limit < al.length := by omega
      have hpj : pages (j * limit) =
          .ok (some ((al.drop (j * limit)).take limit)) none none
            (some al.length) := by
        rw [hagree _ (by omega)]; rfl
      have hlen : ((al.drop (j * limit)).take limit).length =
          min limit (al.length - j * limit) := by
        simp [List.length_take, List.length_drop]
      have hfull : min limit (al.length - j * limit) = limit := by omega
      have hne : ((al.drop (j * limit)).take limit).isEmpty = false := by
        rw [List.isEmpty_eq_false, ← List.length_pos, hlen]
        omega
      rw [fetchGo, hpj]
      simp only [pyOrList, hne, Bool.false_eq_true, if_false,
        Option.getD_some, Option.getD_none]
      rw [if_neg (by rw [hlen, hfull]; omega)]
      rw [hlen, hfull, show j * limit + limit = (j + 1) * limit from
        hmul.symm]
      rw [ih (j + 1) (acc ++ (al.drop (j * limit)).take limit)
        (by omega) (by omega)]
      rw [List.append_assoc]
      congr 1
      rw [show al.drop ((j + 1) * limit) =
        (al.drop (j * limit)).drop limit from by rw [List.drop_drop, hmul]]
      rw [show (P - j) * limit = limit + (P - (j + 1)) * limit from by
        rw [show P - j = (P - (j + 1)) + 1 from by omega, Nat.succ_mul]
        omega]
      rw [List.take_add]

/-- Claim C3.  Pagination fetcher.  First part: against a well-formed API
(page at offset `skip` serves `allItems[skip : skip+limit]` under one of the
collection keys and reports `total = len(allItems)`), the fetcher returns
exactly the `total` items, pages concatenated in increasing-skip order,
stopping via the `total_fetched >= total` check (or the zero-items check for
an empty collection).  Second part: if the pages before page `P` are
well-formed but page `P` yields no items — an HTTP-level failure
(`PageResp.fail`, whose `pageItems` is `[]`) or an empty page — the fetcher
stops there and returns the partial results accumulated so far (the first
`P * limit` items in order) rather than discarding them.  `fuel` bounds the
iterations of the source's unbounded `while True` loop and is required to be
large enough to reach the stopping page. -/
theorem c3_fetch_paginated_data {α : Type} (al : List α)
    (limit fuel : Nat) (hl : 0 < limit) :
    (al.length ≤ fuel * limit →
      fetch_paginated_data (wfPages al limit) limit fuel = al) ∧
    (∀ (pages : Nat → PageResp α) (P : Nat),
      (∀ s, s < P * limit → pages s = wfPages al limit s) →
      pageItems (pages (P * limit)) = [] →
      P * limit < al.length →
      P < fuel →
      fetch_paginated_data pages limit fuel = al.take (P * limit)) := by
  constructor
  · intro hfuel
    by_cases hnil : al.length = 0
    · rw [List.length_eq_zero] at hnil
      subst hnil
      rw [fetch_paginated_data]
      match fuel with
      | 0 => rfl
      | fuel + 1 =>
        rw [fetchGo]
        simp [wfPages, pyOrList]
    · have h := fetchGo_wf al limit hl fuel 0 [] (by omega) (by omega)
      rw [Nat.zero_mul] at h
      rw [fetch_paginated_data, h]
      simp
  · intro pages P hagree hstop hB hfuel
    have h := fetchGo_cut pages al limit hl P hagree hstop hB fuel 0 []
      (by omega) (by omega)
    rw [Nat.zero_mul] at h
    rw [fetch_paginated_data, h]
    simp

/-- Witness for C3: five items fetched in pages of two from the well-formed
API, and the partial result of a fetch whose second page fails. -/
theorem c3_witness :
    fetch_paginated_data (wfPages [10, 20, 30, 40, 50] 2) 2 5 =
      [10, 20, 30, 40, 50] ∧
    fetch_paginated_data
      (fun s => if s < 2 then wfPages [10, 20, 30, 40, 50] 2 s
        else .fail) 2 5 = [10, 20] := by
  have h := c3_fetch_paginated_data [10, 20, 30, 40, 50] 2 5 (by decide)
  refine ⟨h.1 (by decide), ?_⟩
  have h2 := h.2
    (fun s => if s < 2 then wfPages [10, 20, 30, 40, 50] 2 s else .fail) 1
    (by
      intro s hs
      show (if s < 2 then wfPages [10, 20, 30, 40, 50] 2 s
        else PageResp.fail) = wfPages [10, 20, 30, 40, 50] 2 s
      rw [if_pos (by omega)]) rfl
    (by decide) (by decide)
  simpa using h2

end Savannah
